import Mathlib

/-!
Shallow embedding of the ARM7TDMI instruction-execution core
(`src/arm7tdmi.rs` of the repository) together with the collaborator
modules it uses (`cpsr`, `instruction`, `alu_instruction`), which are not
part of the provided sources and are therefore modelled from the spec.

Machine integers (Rust `u32`) are represented as `Nat` with explicit
`% 2^32` wherever the Rust code wraps; fallible code (Rust `todo!()`,
`unreachable!()`, out-of-bounds slicing) is represented by an explicit
result type `Res` that carries the state reached at the moment of
failure, mirroring the mutations the Rust code performs before a panic.
-/

/-- `2^32`, the modulus of `u32` arithmetic. -/
def u32size : Nat := 4294967296

/-- Wrap a natural number into `u32` range, as Rust wrapping arithmetic does. -/
def wrap (n : Nat) : Nat := n % u32size

/-- `bitwise::Bits::get_bits(lo..=hi)`: the bit field from bit `lo` to bit
`hi` inclusive, as an unsigned value. -/
def getBits (n lo hi : Nat) : Nat := n / 2 ^ lo % 2 ^ (hi - lo + 1)

/-- `u32::rotate_right`: rotate the 32-bit value `x` right by `s` places
(`s` taken modulo 32, as Rust does). -/
def rotateRight32 (x s : Nat) : Nat :=
  let r := s % 32
  (x / 2 ^ r + x % 2 ^ r * 2 ^ (32 - r)) % u32size

/-- `((value as i32) >> shift_amount) as u32`: arithmetic shift right of a
32-bit value, i.e. floor division of the two's-complement reading. -/
def asr32 (v s : Nat) : Nat :=
  (Int.fdiv (if v < 2 ^ 31 then (v : Int) else (v : Int) - (u32size : Int))
      (2 ^ s) % (u32size : Int)).toNat

/-- The CPSR flags register. Modelled from the spec: `cpsr.rs` is not under
`src/`; §3 gives the four flags and the all-clear default. -/
structure Cpsr where
  sign : Bool
  zero : Bool
  carry : Bool
  overflow : Bool
deriving DecidableEq

/-- The default CPSR: all flags clear (spec §3, §6). -/
def Cpsr.default : Cpsr := ⟨false, false, false, false⟩

def Cpsr.set_sign_flag (c : Cpsr) (b : Bool) : Cpsr := { c with sign := b }

def Cpsr.set_zero_flag (c : Cpsr) (b : Bool) : Cpsr := { c with zero := b }

/-- Condition evaluation. Modelled from the spec: `Cpsr::can_execute` lives
in `cpsr.rs`, not under `src/`; the 16-entry table is spec §4.2, with the
condition number taken from opcode bits 31–28 (0=EQ … 14=AL, 15=NV). -/
def Cpsr.can_execute (c : Cpsr) (cond : Nat) : Bool :=
  match cond with
  | 0 => c.zero
  | 1 => !c.zero
  | 2 => c.carry
  | 3 => !c.carry
  | 4 => c.sign
  | 5 => !c.sign
  | 6 => c.overflow
  | 7 => !c.overflow
  | 8 => c.carry && !c.zero
  | 9 => !c.carry || c.zero
  | 10 => c.sign == c.overflow
  | 11 => c.sign != c.overflow
  | 12 => (c.sign == c.overflow) && !c.zero
  | 13 => (c.sign != c.overflow) || c.zero
  | 14 => true
  | _ => false

/-- The decoded instruction variants (`instruction.rs`, mirrored by the
`match` in `Arm7tdmi::execute`). -/
inductive ArmModeInstruction where
  | Branch
  | BranchLink
  | DataProcessing1
  | DataProcessing2
  | DataProcessing3
  | DataTransfer
deriving DecidableEq

/-- Instruction classification. Modelled from the spec: the decoder
(`ArmModeInstruction::try_from` in `instruction.rs`) is not under `src/`.
Spec §4.3: bits 27–25 = `101` with bit 24 picking Branch/BranchWithLink;
bits 27–26 = `00` picks DataProcessing, tagged by addressing form
(immediate operand / register shifted by register / register shifted by
immediate amount — the variant numbering is anchored by the source tests:
the register-shift-immediate TEQ opcode decodes to `DataProcessing1` and
the MOV-immediate opcode to `DataProcessing3`); bits 27–26 = `01` picks
SingleDataTransfer; anything else fails decoding. -/
def decodeInstruction (op : Nat) : Except String ArmModeInstruction :=
  if getBits op 25 27 = 5 then
    if op.testBit 24 then .ok .BranchLink else .ok .Branch
  else if getBits op 26 27 = 0 then
    if op.testBit 25 then .ok .DataProcessing3
    else if op.testBit 4 then .ok .DataProcessing2
    else .ok .DataProcessing1
  else if getBits op 26 27 = 1 then .ok .DataTransfer
  else .error "unrecognized instruction"

/-- The 16 ALU operations (`alu_instruction.rs`). -/
inductive ArmModeAluInstruction where
  | And | Eor | Sub | Rsb | Add | Adc | Sbc | Rsc
  | Tst | Teq | Cmp | Cmn | Orr | Mov | Bic | Mvn
deriving DecidableEq

/-- ALU opcode numbering. Modelled from the spec: `alu_instruction.rs` is
not under `src/`; spec §4.5 lists the 16 operations in opcode order
AND, EOR, SUB, RSB, ADD, ADC, SBC, RSC, TST, TEQ, CMP, CMN, ORR, MOV,
BIC, MVN (so TEQ = 9 and MOV = 13, matching the source tests). -/
def aluFromU32 (n : Nat) : ArmModeAluInstruction :=
  match n with
  | 0 => .And
  | 1 => .Eor
  | 2 => .Sub
  | 3 => .Rsb
  | 4 => .Add
  | 5 => .Adc
  | 6 => .Sbc
  | 7 => .Rsc
  | 8 => .Tst
  | 9 => .Teq
  | 10 => .Cmp
  | 11 => .Cmn
  | 12 => .Orr
  | 13 => .Mov
  | 14 => .Bic
  | _ => .Mvn

/-- The load/store/preload classification of a single data transfer
(`enum SingleDataTransfer` in `arm7tdmi.rs`). -/
inductive SingleDataTransfer where
  | Ldr
  | Str
  | Pld
deriving DecidableEq

/-- `SingleDataTransfer::from(op_code)`: bit 20 clear is a store; with
bit 20 set, the opcode is a preload when bits 31–28 are all set and a
load otherwise. -/
def sdtFromU32 (op : Nat) : SingleDataTransfer :=
  let must_for_pld := op.testBit 31 && op.testBit 30 && op.testBit 29 && op.testBit 28
  if op.testBit 20 then
    if must_for_pld then .Pld else .Ldr
  else .Str

/-- The CPU state: the code image (`rom`, a byte list), the 16-entry
register file, and the CPSR. Register 15 is the program counter. -/
structure Arm7tdmi where
  rom : List Nat
  registers : List Nat
  cpsr : Cpsr
deriving DecidableEq

/-- `Registers::register_at`. -/
def register_at (s : Arm7tdmi) (r : Nat) : Nat := s.registers.getD r 0

/-- `Registers::set_register_at`; the stored value is a `u32`. -/
def set_register_at (s : Arm7tdmi) (r v : Nat) : Arm7tdmi :=
  { s with registers := s.registers.set r (wrap v) }

/-- `Registers::program_counter`: register 15 as a byte offset. -/
def program_counter (s : Arm7tdmi) : Nat := register_at s 15

/-- `Registers::advance_program_counter`: wrapping add to register 15. -/
def advance_program_counter (s : Arm7tdmi) (bytes : Nat) : Arm7tdmi :=
  set_register_at s 15 (wrap (register_at s 15 + bytes))

/-- Result of a fallible, state-mutating operation: either success with a
value and the updated state, or failure (a Rust panic) carrying the state
reached at the moment of the failure. -/
inductive Res (α : Type) where
  | ok : α → Arm7tdmi → Res α
  | err : String → Arm7tdmi → Res α
deriving DecidableEq

/-- The state carried by a result, successful or not. -/
def Res.state {α : Type} : Res α → Arm7tdmi
  | .ok _ s => s
  | .err _ s => s

/-- Whether the operation succeeded. -/
def Res.isOk {α : Type} : Res α → Bool
  | .ok _ _ => true
  | .err _ _ => false

/-- `Arm7tdmi::fetch`: read 4 bytes at the program counter from the code
image, little-endian; slicing past the image bound panics. -/
def fetch (s : Arm7tdmi) : Option Nat :=
  let i := program_counter s
  if i + 4 ≤ s.rom.length then
    some (s.rom.getD i 0 + s.rom.getD (i + 1) 0 * 256 +
      s.rom.getD (i + 2) 0 * 65536 + s.rom.getD (i + 3) 0 * 16777216)
  else none

/-- `Arm7tdmi::branch`: offset is the low 24 bits of the opcode; the
program counter advances by `8 + offset * 4`. -/
def branch (s : Arm7tdmi) (op : Nat) : Arm7tdmi :=
  advance_program_counter s (8 + op % 2 ^ 24 * 4)

/-- `Arm7tdmi::branch_link`: store PC+4 into register 14, then advance the
program counter by `8 + offset * 4`. -/
def branch_link (s : Arm7tdmi) (op : Nat) : Arm7tdmi :=
  let pc := program_counter s
  let s1 := set_register_at s 14 (wrap (pc + 4))
  advance_program_counter s1 (8 + op % 2 ^ 24 * 4)

/-- `Arm7tdmi::shift_immediate`: shift `value` by `shift_amount` according
to `shift_type` (0=LSL, 1=LSR, 2=ASR, 3=ROR); any other type hits
`unreachable!()`. -/
def shift_immediate (shift_type shift_amount value : Nat) : Except String Nat :=
  match shift_type with
  | 0 => .ok (wrap (value * 2 ^ shift_amount))
  | 1 => .ok (value / 2 ^ shift_amount)
  | 2 => .ok (asr32 value shift_amount)
  | 3 => .ok (rotateRight32 value shift_amount)
  | _ => .error "unreachable"

/-- `Arm7tdmi::shift`: the barrel shifter with the shift-amount-zero
special cases. Note that for the zero-amount LSR/ASR cases the source
reads `register_at(value)`, treating `value` as a register index, and
mutates the sign flag; ROR#0 is `todo!()`. -/
def shift (s : Arm7tdmi) (shift_type shift_amount value : Nat) : Res Nat :=
  match shift_amount with
  | 0 =>
    match shift_type with
    | 0 => .ok value s
    | 1 =>
      let rm := register_at s value
      .ok 0 { s with cpsr := s.cpsr.set_sign_flag (rm.testBit 31) }
    | 2 =>
      let rm := register_at s value
      if rm.testBit 31 then .ok 1 { s with cpsr := s.cpsr.set_sign_flag true }
      else .ok 0 { s with cpsr := s.cpsr.set_sign_flag true }
    | 3 => .err "todo: value Bit 31 set to old C" s
    | _ => .err "unreachable" s
  | amount =>
    match shift_immediate shift_type amount value with
    | .ok v => .ok v s
    | .error e => .err e s

/-- `Arm7tdmi::mov`: write `op2` to the destination register. -/
def mov (s : Arm7tdmi) (rd op2 : Nat) : Arm7tdmi := set_register_at s rd op2

/-- `Arm7tdmi::teq`: XOR the first operand register with `op2`, discard
the result, set the sign flag to its bit 31 and the zero flag to whether
it is zero. -/
def teq (s : Arm7tdmi) (rn op2 : Nat) : Arm7tdmi :=
  let value := Nat.xor (register_at s rn) op2
  { s with cpsr := (s.cpsr.set_sign_flag (value.testBit 31)).set_zero_flag (value = 0) }

/-- Operand-2 resolution of `Arm7tdmi::data_processing`: with the
immediate flag clear, bits 0–3 give the operand (the source passes this
register index itself into the shifter), bit 4 picks shift-by-immediate
(amount in bits 7–11) versus shift-by-register (low 8 bits of the
register in bits 8–11; the source passes the amount and the type to
`shift_immediate` in swapped positions); with the immediate flag set,
bits 0–7 rotated right by twice bits 8–11. -/
def resolveOp2 (s : Arm7tdmi) (opcode : Nat) : Res Nat :=
  if opcode.testBit 25 then
    let is := getBits opcode 8 11
    let nn := getBits opcode 0 7
    .ok (rotateRight32 nn (is * 2)) s
  else
    let shift_type := getBits opcode 5 6
    let op2 := getBits opcode 0 3
    if opcode.testBit 4 then
      let rs := getBits opcode 8 11
      let shift_amount := getBits (register_at s rs) 0 7
      match shift_immediate shift_amount shift_type op2 with
      | .ok v => .ok v s
      | .error e => .err e s
    else
      let shift_amount := getBits opcode 7 11
      shift s shift_type shift_amount op2

/-- `Arm7tdmi::data_processing`: resolve operand 2, then dispatch on the
ALU opcode in bits 21–24; only MOV and TEQ have handlers, everything else
is `todo!()`. The condition-codes bit 20 is read and ignored. -/
def data_processing (s : Arm7tdmi) (opcode : Nat) : Res Unit :=
  let alu_opcode := getBits opcode 21 24
  let rd := getBits opcode 12 15
  let rn := getBits opcode 16 19
  match resolveOp2 s opcode with
  | .err e s1 => .err e s1
  | .ok op2 s1 =>
    match aluFromU32 alu_opcode with
    | .Mov => .ok () (mov s1 rd op2)
    | .Teq => .ok () (teq s1 rn op2)
    | _ => .err "todo" s1

/-- `Arm7tdmi::single_data_transfer`: compute the base (PC+8 when the base
register field is 15, the raw register value otherwise; the `pc + 8` add
is an unchecked `u32` add and panics on overflow), take the 12-bit offset
from bits 0–11 (the immediate-offset form is `todo!()`), and for a load
write base ∓ offset (wrapping, subtracting when bit 23 is set) into the
destination register; store and preload are `todo!()`. -/
def single_data_transfer (s : Arm7tdmi) (opcode : Nat) : Res Unit :=
  let up_down := opcode.testBit 23
  let rn := getBits opcode 16 19
  if rn = 15 ∧ ¬ (program_counter s + 8 < u32size) then
    .err "attempt to add with overflow" s
  else
    let address := if rn = 15 then program_counter s + 8 else register_at s rn
    let rd := getBits opcode 12 15
    if opcode.testBit 25 then .err "todo" s
    else
      let offset := getBits opcode 0 11
      match sdtFromU32 opcode with
      | .Ldr =>
        .ok () (set_register_at s rd
          (if up_down then (address + (u32size - offset)) % u32size
           else wrap (address + offset)))
      | _ => .err "todo" s

/-- `Arm7tdmi::execute`: dispatch on the decoded instruction, then
advance the program counter by 4 — the advance happens only when the
handler returned normally, since a panic aborts the step. -/
def execute (s : Arm7tdmi) (op : Nat) (instr : ArmModeInstruction) : Res Unit :=
  let r : Res Unit :=
    match instr with
    | .Branch => .ok () (branch s op)
    | .BranchLink => .ok () (branch_link s op)
    | .DataProcessing1 | .DataProcessing2 | .DataProcessing3 => data_processing s op
    | .DataTransfer => single_data_transfer s op
  match r with
  | .ok _ s1 => .ok () (advance_program_counter s1 4)
  | .err e s1 => .err e s1

/-- `Arm7tdmi::step`: fetch the opcode at the program counter, decode it,
and execute it when the current flags satisfy the decoded condition
(bits 31–28); when they do not, nothing at all happens. -/
def step (s : Arm7tdmi) : Res Unit :=
  match fetch s with
  | none => .err "fetch out of bounds" s
  | some op =>
    match decodeInstruction op with
    | .error e => .err e s
    | .ok instr =>
      if s.cpsr.can_execute (getBits op 28 31) then execute s op instr
      else .ok () s

/-! ## Helper lemmas about the register file -/

theorem registers_length_set (s : Arm7tdmi) (r v : Nat) :
    (set_register_at s r v).registers.length = s.registers.length := by
  simp [set_register_at]

theorem register_at_set_ne (s : Arm7tdmi) (r v q : Nat) (h : r ≠ q) :
    register_at (set_register_at s r v) q = register_at s q := by
  simp [register_at, set_register_at, List.getD_eq_getElem?_getD, List.getElem?_set_ne h]

theorem register_at_set_self (s : Arm7tdmi) (r v : Nat)
    (h : r < s.registers.length) :
    register_at (set_register_at s r v) r = wrap v := by
  simp [register_at, set_register_at, List.getD_eq_getElem?_getD,
    List.getElem?_set_self', List.getElem?_eq_getElem h]

theorem register_at_of_registers_eq (s t : Arm7tdmi)
    (h : s.registers = t.registers) (r : Nat) :
    register_at s r = register_at t r := by
  simp [register_at, h]

theorem wrap_lt (n : Nat) : wrap n < u32size :=
  Nat.mod_lt _ (by norm_num [u32size])

theorem wrap_eq_of_lt {n : Nat} (h : n < u32size) : wrap n = n :=
  Nat.mod_eq_of_lt h

theorem wrap_wrap_add (a b : Nat) : wrap (wrap a + b) = wrap (a + b) :=
  Nat.mod_add_mod a u32size b

theorem rotateRight32_lt (x s : Nat) : rotateRight32 x s < u32size :=
  Nat.mod_lt _ (by norm_num [u32size])

theorem getBits_lt (n lo hi : Nat) : getBits n lo hi < 2 ^ (hi - lo + 1) :=
  Nat.mod_lt _ (Nat.pos_pow_of_pos _ (by norm_num))

theorem program_counter_advance (s : Arm7tdmi) (b : Nat)
    (h : 15 < s.registers.length) :
    program_counter (advance_program_counter s b) = wrap (program_counter s + b) := by
  unfold advance_program_counter program_counter
  rw [register_at_set_self s 15 _ h, wrap_eq_of_lt (wrap_lt _)]

theorem register_at_advance_ne (s : Arm7tdmi) (b q : Nat) (h : q ≠ 15) :
    register_at (advance_program_counter s b) q = register_at s q :=
  register_at_set_ne s 15 _ q (fun he => h he.symm)

/-! ## Claim theorems -/

/-- The state used for claim C1: a code image holding the single opcode
0x00000000 (condition EQ, data-processing class), registers all zero and
flags all clear, so the EQ condition is not satisfied. -/
def c1State : Arm7tdmi := ⟨[0, 0, 0, 0], List.replicate 16 0, Cpsr.default⟩

/-- Claim C1 (refuted, code bug): when the fetched opcode's condition is
not satisfied, `step` indeed performs no register or flag mutation — but
contrary to the claim the program counter is NOT advanced by 4: the
post-execute advance lives inside `execute`, which `step` skips entirely
when the condition fails, so the state comes back unchanged with the
program counter still 0 rather than 4. -/
theorem c1_skipped_step_does_not_advance_pc :
    step c1State = .ok () c1State ∧ program_counter (step c1State).state = 0 := by
  decide

/-- The state used for claim C3: register 2 holds 100. -/
def c3State : Arm7tdmi :=
  ⟨[], [0, 0, 100, 0, 0, 0, 0, 0, 0, 0, 0, 0, 0, 0, 0, 0], Cpsr.default⟩

/-- The state used for the shift-by-register half of claim C3: register 2
holds 100 and register 3 (the shift-amount register) holds 2. -/
def c3StateR : Arm7tdmi :=
  ⟨[], [0, 0, 100, 2, 0, 0, 0, 0, 0, 0, 0, 0, 0, 0, 0, 0], Cpsr.default⟩

/-- Claim C3 (refuted, code bug): opcode 0xE1A01082 is MOV R1, R2 LSL #1
(immediate flag clear, shift-by-immediate form, Rm = R2 holding 100); the
claim requires operand 2 to be the value held in R2 shifted left by 1,
i.e. 200, but the code feeds the register index itself into the shifter
and writes 2 <<< 1 = 4. Opcode 0xE1A01332 is MOV R1, R2 LSR R3 (shift-by-
register form, R3 holding 2); the claim requires 100 >>> 2 = 25, but the
code also swaps the shift type and the shift amount when calling
`shift_immediate`, producing ASR-by-1 of the index 2, i.e. 1. -/
theorem c3_operand_two_uses_register_index :
    (data_processing c3State 0xE1A01082 = .ok () (set_register_at c3State 1 4) ∧
      register_at (data_processing c3State 0xE1A01082).state 1 = 4) ∧
    (data_processing c3StateR 0xE1A01332 = .ok () (set_register_at c3StateR 1 1) ∧
      register_at (data_processing c3StateR 0xE1A01332).state 1 = 1) := by
  decide

/-- The state used for claim C4: register 3 holds 0x80000000 (bit 31 set)
and register 4 holds 0 (bit 31 clear); all flags clear. -/
def c4State : Arm7tdmi :=
  ⟨[], [0, 0, 0, 2147483648, 0, 0, 0, 0, 0, 0, 0, 0, 0, 0, 0, 0], Cpsr.default⟩

/-- Claim C4 (refuted, code bug): LSL#0 leaves the value unchanged and
touches no flag, as claimed. But ASR#0 on R3 = 0x80000000 must produce
0xFFFFFFFF with the CARRY flag set to bit 31; the code produces 1 and
sets the SIGN flag instead, and it sets the sign flag to true even when
bit 31 of Rm is clear (R4 = 0). LSR#0 produces 0 as claimed but likewise
sets the SIGN flag rather than the carry flag. -/
theorem c4_zero_amount_shift_divergence :
    shift c4State 0 0 3 = .ok 3 c4State ∧
    shift c4State 1 0 3 =
      .ok 0 { c4State with cpsr := Cpsr.default.set_sign_flag true } ∧
    shift c4State 2 0 3 =
      .ok 1 { c4State with cpsr := Cpsr.default.set_sign_flag true } ∧
    shift c4State 2 0 4 =
      .ok 0 { c4State with cpsr := Cpsr.default.set_sign_flag true } := by
  decide

/-- The state used for claim C5: a 96-byte code image whose last word (at
byte offset 92) is the opcode 0xE59FD018 — a single-data-transfer load
with base register 15, subtract direction and offset 24 — and the program
counter at 92. -/
def c5State : Arm7tdmi :=
  ⟨List.replicate 92 0 ++ [24, 208, 159, 229],
    List.replicate 15 0 ++ [92], Cpsr.default⟩

/-- Claim C5 (confirmed): stepping from program counter 92 on the load
opcode 0xE59FD018 (base via PC, so effective base 92 + 8 = 100; offset
24; subtract direction) writes 100 - 24 = 76 into destination register 13
and leaves the program counter at 92 + 4 = 96. -/
theorem c5_load_with_pc_base :
    (step c5State).isOk = true ∧
    register_at (step c5State).state 13 = 76 ∧
    program_counter (step c5State).state = 96 := by
  decide

set_option maxRecDepth 4096 in
/-- Claim C2 (confirmed): for every BranchWithLink opcode executed by
`step` with the program counter at X before the step, register 14 ends at
X + 4 and the program counter ends at X + 8 + (low 24 bits of the opcode
× 4) + 4, the final +4 being the post-execute advance — all as 32-bit
wrapping arithmetic. -/
theorem c2_branch_with_link_step (s : Arm7tdmi) (op : Nat)
    (hlen : s.registers.length = 16)
    (hfetch : fetch s = some op)
    (hdec : decodeInstruction op = .ok .BranchLink)
    (hcond : s.cpsr.can_execute (getBits op 28 31) = true) :
    ∃ s1, step s = .ok () s1 ∧
      register_at s1 14 = (program_counter s + 4) % u32size ∧
      program_counter s1 = (program_counter s + 8 + op % 2 ^ 24 * 4 + 4) % u32size := by
  have hstep : step s = .ok () (advance_program_counter (branch_link s op) 4) := by
    simp only [step, execute, hfetch, hdec, hcond, if_true]
  refine ⟨_, hstep, ?_, ?_⟩
  · rw [register_at_advance_ne _ _ _ (by norm_num)]
    unfold branch_link
    rw [register_at_advance_ne _ _ _ (by norm_num),
      register_at_set_self _ _ _ (by rw [hlen]; norm_num),
      wrap_eq_of_lt (wrap_lt _)]
    rfl
  · have h15a : (15 : Nat) < (branch_link s op).registers.length := by
      unfold branch_link advance_program_counter
      rw [registers_length_set, registers_length_set, hlen]; norm_num
    rw [program_counter_advance _ _ h15a]
    unfold branch_link
    rw [program_counter_advance _ _ (by rw [registers_length_set, hlen]; norm_num)]
    unfold program_counter
    rw [register_at_set_ne _ _ _ _ (by norm_num)]
    unfold wrap
    rw [Nat.mod_add_mod]
    congr 1
    omega

/-- The state used for the claim C2 witness: a code image holding the
single opcode 0xEB000001 (BL with word offset 1, condition AL), registers
all zero and flags clear. -/
def c2State : Arm7tdmi := ⟨[1, 0, 0, 235], List.replicate 16 0, Cpsr.default⟩

/-- Witness for claim C2 at the concrete BL opcode 0xEB000001 from
program counter 0. -/
theorem c2_branch_with_link_step_witness :
    ∃ s1, step c2State = .ok () s1 ∧
      register_at s1 14 = (program_counter c2State + 4) % u32size ∧
      program_counter s1 =
        (program_counter c2State + 8 + 3942645761 % 2 ^ 24 * 4 + 4) % u32size :=
  c2_branch_with_link_step c2State 3942645761 (by decide) rfl rfl rfl

set_option maxRecDepth 4096 in
/-- Claim C6 (confirmed): executing a data-processing opcode with the
immediate flag set and ALU opcode MOV through `step` writes
`rotate_right(bits 0–7, bits 8–11 × 2)` into the destination register;
when the destination is register 15, the value observed after the step
additionally carries the +4 post-execute program-counter advance. -/
theorem c6_mov_immediate_step (s : Arm7tdmi) (op : Nat)
    (hlen : s.registers.length = 16)
    (hfetch : fetch s = some op)
    (hdec : decodeInstruction op = .ok .DataProcessing3)
    (himm : op.testBit 25 = true)
    (halu : getBits op 21 24 = 13)
    (hcond : s.cpsr.can_execute (getBits op 28 31) = true) :
    ∃ s1, step s = .ok () s1 ∧
      (getBits op 12 15 ≠ 15 →
        register_at s1 (getBits op 12 15) =
          rotateRight32 (getBits op 0 7) (getBits op 8 11 * 2)) ∧
      (getBits op 12 15 = 15 →
        program_counter s1 =
          (rotateRight32 (getBits op 0 7) (getBits op 8 11 * 2) + 4) % u32size) := by
  have hstep : step s = .ok () (advance_program_counter
      (mov s (getBits op 12 15)
        (rotateRight32 (getBits op 0 7) (getBits op 8 11 * 2))) 4) := by
    simp only [step, execute, data_processing, resolveOp2, hfetch, hdec, hcond,
      himm, halu, if_true, aluFromU32]
  have hrdlt : getBits op 12 15 < 16 := getBits_lt op 12 15
  refine ⟨_, hstep, ?_, ?_⟩
  · intro hne
    rw [register_at_advance_ne _ _ _ hne]
    unfold mov
    rw [register_at_set_self _ _ _ (by rw [hlen]; exact hrdlt),
      wrap_eq_of_lt (rotateRight32_lt _ _)]
  · intro he
    rw [program_counter_advance _ _ (by unfold mov; rw [registers_length_set, hlen]; norm_num)]
    unfold mov program_counter
    rw [he, register_at_set_self _ _ _ (by rw [hlen]; norm_num),
      wrap_eq_of_lt (rotateRight32_lt _ _)]
    rfl

/-- The state used for the claim C6 witness: a code image holding the
single opcode 0xE3A01001 (MOV R1, #1, condition AL). -/
def c6State : Arm7tdmi := ⟨[1, 16, 160, 227], List.replicate 16 0, Cpsr.default⟩

/-- Witness for claim C6 at the concrete opcode 0xE3A01001. -/
theorem c6_mov_immediate_step_witness :
    ∃ s1, step c6State = .ok () s1 ∧
      (getBits 3818917889 12 15 ≠ 15 →
        register_at s1 (getBits 3818917889 12 15) =
          rotateRight32 (getBits 3818917889 0 7) (getBits 3818917889 8 11 * 2)) ∧
      (getBits 3818917889 12 15 = 15 →
        program_counter s1 =
          (rotateRight32 (getBits 3818917889 0 7) (getBits 3818917889 8 11 * 2) + 4)
            % u32size) :=
  c6_mov_immediate_step c6State 3818917889 (by decide) rfl rfl (by decide) (by decide) rfl

/-- The barrel shifter only ever touches the sign flag: its result state,
successful or not, is the input state with some value of the sign flag. -/
theorem shift_state_set_sign (s : Arm7tdmi) (t a v : Nat) :
    ∃ b, (shift s t a v).state = { s with cpsr := s.cpsr.set_sign_flag b } := by
  have hself : { s with cpsr := s.cpsr.set_sign_flag s.cpsr.sign } = s := rfl
  rcases a with _ | a
  · rcases t with _ | _ | _ | _ | t
    · exact ⟨s.cpsr.sign, by rw [hself]; rfl⟩
    · exact ⟨(register_at s v).testBit 31, rfl⟩
    · by_cases h : (register_at s v).testBit 31
      · exact ⟨true, by simp [shift, Res.state, h]⟩
      · exact ⟨true, by simp [shift, Res.state, h]⟩
    · exact ⟨s.cpsr.sign, by rw [hself]; rfl⟩
    · exact ⟨s.cpsr.sign, by rw [hself]; rfl⟩
  · refine ⟨s.cpsr.sign, ?_⟩
    rw [hself]
    unfold shift
    rcases h : shift_immediate t (a + 1) v with v2 | e <;> simp [h, Res.state]

/-- Operand-2 resolution only ever touches the sign flag. -/
theorem resolveOp2_state_set_sign (s : Arm7tdmi) (op : Nat) :
    ∃ b, (resolveOp2 s op).state = { s with cpsr := s.cpsr.set_sign_flag b } := by
  have hself : { s with cpsr := s.cpsr.set_sign_flag s.cpsr.sign } = s := rfl
  unfold resolveOp2
  by_cases h25 : op.testBit 25
  · exact ⟨s.cpsr.sign, by rw [hself]; simp [h25, Res.state]⟩
  · simp only [h25, Bool.false_eq_true, if_false]
    by_cases h4 : op.testBit 4
    · simp only [h4, if_true]
      refine ⟨s.cpsr.sign, ?_⟩
      rw [hself]
      rcases shift_immediate (getBits (register_at s (getBits op 8 11)) 0 7)
        (getBits op 5 6) (getBits op 0 3) with _ | _ <;> rfl
    · simp only [h4, Bool.false_eq_true, if_false]
      exact shift_state_set_sign s (getBits op 5 6) (getBits op 7 11) (getBits op 0 3)

/-- Operand-2 resolution never writes a register. -/
theorem resolveOp2_registers (s : Arm7tdmi) (op : Nat) :
    (resolveOp2 s op).state.registers = s.registers := by
  obtain ⟨b, hb⟩ := resolveOp2_state_set_sign s op
  rw [hb]

set_option maxRecDepth 4096 in
/-- Claim C7 (confirmed): every TEQ data-processing instruction that
executes discards the XOR result (no register is written), sets the sign
flag N to bit 31 of `Rn XOR operand2` and the zero flag Z to whether that
XOR is zero — for every opcode whose ALU field is TEQ, hence regardless
of the condition-codes-update bit 20. -/
theorem c7_teq_flags (s s1 : Arm7tdmi) (op v : Nat)
    (halu : getBits op 21 24 = 9)
    (hop2 : resolveOp2 s op = .ok v s1) :
    data_processing s op = .ok () (teq s1 (getBits op 16 19) v) ∧
    (data_processing s op).state.registers = s.registers ∧
    (data_processing s op).state.cpsr.sign =
      (Nat.xor (register_at s (getBits op 16 19)) v).testBit 31 ∧
    (data_processing s op).state.cpsr.zero =
      decide (Nat.xor (register_at s (getBits op 16 19)) v = 0) := by
  have hreg : s1.registers = s.registers := by
    have h := resolveOp2_registers s op
    rw [hop2] at h
    exact h
  have hrn : register_at s1 (getBits op 16 19) = register_at s (getBits op 16 19) :=
    register_at_of_registers_eq _ _ hreg _
  have hdp : data_processing s op = .ok () (teq s1 (getBits op 16 19) v) := by
    simp only [data_processing, hop2, halu, aluFromU32]
  refine ⟨hdp, ?_, ?_, ?_⟩ <;> rw [hdp] <;>
    simp [Res.state, teq, Cpsr.set_zero_flag, Cpsr.set_sign_flag, hreg, hrn]

/-- The state used for the claim C7 witness: register 9 holds 100. -/
def c7State : Arm7tdmi :=
  ⟨[], [0, 0, 0, 0, 0, 0, 0, 0, 0, 100, 0, 0, 0, 0, 0, 0], Cpsr.default⟩

/-- Witness for claim C7 at the source-test TEQ opcode 0xE1293000 with
Rn = R9 holding 100 and operand 2 resolving to 0: afterwards N and Z are
both false. -/
theorem c7_teq_flags_witness :
    (data_processing c7State 0xE1293000).state.cpsr.sign = false ∧
    (data_processing c7State 0xE1293000).state.cpsr.zero = false := by
  have h := c7_teq_flags c7State c7State 0xE1293000 0 (by decide) rfl
  refine ⟨h.2.2.1.trans (by decide), h.2.2.2.trans (by decide)⟩

/-- A failing single data transfer leaves the state untouched. -/
theorem single_data_transfer_err_state (s : Arm7tdmi) (op : Nat) :
    (single_data_transfer s op).isOk = false →
    (single_data_transfer s op).state = s := by
  simp only [single_data_transfer]
  by_cases hg : getBits op 16 19 = 15 ∧ ¬ program_counter s + 8 < u32size
  · rw [if_pos hg]; intro _; rfl
  · rw [if_neg hg]
    by_cases h25 : op.testBit 25 = true
    · rw [if_pos h25]; intro _; rfl
    · rw [if_neg h25]
      cases hs : sdtFromU32 op <;> simp only [hs]
      · intro h; simp [Res.isOk] at h
      · intro _; rfl
      · intro _; rfl

/-- A failing data-processing instruction leaves the registers and all
flags but the sign flag untouched: its final state is the input state
with some value of the sign flag. -/
theorem data_processing_err_state (s : Arm7tdmi) (op : Nat)
    (h : (data_processing s op).isOk = false) :
    ∃ b, (data_processing s op).state = { s with cpsr := s.cpsr.set_sign_flag b } := by
  have hs1 := resolveOp2_state_set_sign s op
  unfold data_processing at h ⊢
  rcases hr : resolveOp2 s op with ⟨v, s1⟩ | ⟨e, s1⟩ <;>
    rw [hr] at hs1 <;> simp only [Res.state] at hs1 <;> simp only [hr] at h ⊢
  · obtain ⟨b, hb⟩ := hs1
    cases hal : aluFromU32 (getBits op 21 24) <;> simp only [hal] at h ⊢ <;>
      first
      | exact ⟨b, by simp only [Res.state]; exact hb⟩
      | simp [Res.isOk] at h
  · obtain ⟨b, hb⟩ := hs1
    exact ⟨b, by simp only [Res.state]; exact hb⟩

/-- A failing execute leaves the registers and all flags but the sign
flag untouched. -/
theorem execute_err_state (s : Arm7tdmi) (op : Nat) (instr : ArmModeInstruction)
    (h : (execute s op instr).isOk = false) :
    ∃ b, (execute s op instr).state = { s with cpsr := s.cpsr.set_sign_flag b } := by
  cases instr <;> simp only [execute] at h ⊢
  case Branch => simp [Res.isOk] at h
  case BranchLink => simp [Res.isOk] at h
  case DataTransfer =>
    rcases hr : single_data_transfer s op with ⟨u, s1⟩ | ⟨e, s1⟩ <;>
      simp only [hr] at h ⊢
    · simp [Res.isOk] at h
    · have := single_data_transfer_err_state s op (by rw [hr]; rfl)
      rw [hr] at this
      simp only [Res.state] at this ⊢
      exact ⟨s.cpsr.sign, by rw [this]; rfl⟩
  all_goals
    rcases hr : data_processing s op with ⟨u, s1⟩ | ⟨e, s1⟩ <;>
      simp only [hr] at h ⊢
  all_goals try simp [Res.isOk] at h
  all_goals
    have := data_processing_err_state s op (by rw [hr]; rfl)
    rw [hr] at this
    simp only [Res.state] at this ⊢
    exact this

/-- A failing step leaves the registers and all flags but the sign flag
untouched. -/
theorem step_err_state (s : Arm7tdmi) (h : (step s).isOk = false) :
    ∃ b, (step s).state = { s with cpsr := s.cpsr.set_sign_flag b } := by
  have hself : { s with cpsr := s.cpsr.set_sign_flag s.cpsr.sign } = s := rfl
  unfold step at h ⊢
  rcases hf : fetch s with _ | op <;> simp only [hf] at h ⊢
  · exact ⟨s.cpsr.sign, by rw [hself]; rfl⟩
  · rcases hd : decodeInstruction op with e | instr <;> simp only [hd] at h ⊢
    · exact ⟨s.cpsr.sign, by rw [hself]; rfl⟩
    · by_cases hc : s.cpsr.can_execute (getBits op 28 31) = true
      · rw [if_pos hc] at h ⊢
        exact execute_err_state s op instr h
      · rw [if_neg hc] at h
        simp [Res.isOk] at h

/-- The state used for the claim C8 counterexample: a code image holding
the single opcode 0xE0000022 — AND (an unimplemented ALU operation) whose
operand 2 is R2 with an LSR#0 shift — with register 2 holding 0x80000000
and all flags clear. -/
def c8State : Arm7tdmi :=
  ⟨[34, 0, 0, 224], [0, 0, 2147483648, 0, 0, 0, 0, 0, 0, 0, 0, 0, 0, 0, 0, 0],
    Cpsr.default⟩

/-- Claim C8 (refuted): a step that fails with the unimplemented-AND
condition is not mutation-free — the LSR#0 operand shift has already set
the sign flag (to bit 31 of R2) by the time the ALU dispatch fails, so
the flags at the moment of failure differ from the flags before the
step. -/
theorem c8_failed_step_mutates_sign_flag :
    (step c8State).isOk = false ∧
    (step c8State).state.cpsr.sign = true ∧
    c8State.cpsr.sign = false := by
  decide

/-- Claim C8 as amended: a step that fails before producing a result
leaves the register file (including the program counter) unchanged and
leaves the zero, carry and overflow flags unchanged; only the sign flag
may have been mutated (by the LSR#0/ASR#0 operand-shift special cases)
before the failure. -/
theorem c8_failed_step_preserves_registers_and_other_flags (s : Arm7tdmi)
    (h : (step s).isOk = false) :
    (step s).state.registers = s.registers ∧
    (step s).state.cpsr.zero = s.cpsr.zero ∧
    (step s).state.cpsr.carry = s.cpsr.carry ∧
    (step s).state.cpsr.overflow = s.cpsr.overflow := by
  obtain ⟨b, hb⟩ := step_err_state s h
  rw [hb]
  exact ⟨rfl, rfl, rfl, rfl⟩

/-- Witness for the amended claim C8 at the concrete failing opcode
0xE0000022. -/
theorem c8_amended_witness :
    (step c8State).state.registers = c8State.registers ∧
    (step c8State).state.cpsr.zero = c8State.cpsr.zero ∧
    (step c8State).state.cpsr.carry = c8State.cpsr.carry ∧
    (step c8State).state.cpsr.overflow = c8State.cpsr.overflow :=
  c8_failed_step_preserves_registers_and_other_flags c8State (by decide)

/-- Claim C9 (confirmed): every data-processing instruction whose ALU
opcode is neither MOV nor TEQ, every single data transfer classified as a
store or a preload, every immediate-offset single data transfer, and
every ROR#0 barrel shift, fails (the `todo!()` panic aborting the step)
rather than completing. -/
theorem c9_unimplemented_paths :
    (∀ (s : Arm7tdmi) (op : Nat), aluFromU32 (getBits op 21 24) ≠ .Mov →
      aluFromU32 (getBits op 21 24) ≠ .Teq →
      (data_processing s op).isOk = false) ∧
    (∀ (s : Arm7tdmi) (op : Nat), op.testBit 25 = false → sdtFromU32 op ≠ .Ldr →
      (single_data_transfer s op).isOk = false) ∧
    (∀ (s : Arm7tdmi) (op : Nat), op.testBit 25 = true →
      (single_data_transfer s op).isOk = false) ∧
    (∀ (s : Arm7tdmi) (v : Nat), (shift s 3 0 v).isOk = false) := by
  refine ⟨?_, ?_, ?_, ?_⟩
  · intro s op hm ht
    unfold data_processing
    rcases hr : resolveOp2 s op with ⟨v, s1⟩ | ⟨e, s1⟩ <;> simp only [hr]
    · cases hal : aluFromU32 (getBits op 21 24) <;>
        first
        | exact absurd hal hm
        | exact absurd hal ht
        | rfl
    · rfl
  · intro s op h25 hld
    simp only [single_data_transfer]
    by_cases hg : getBits op 16 19 = 15 ∧ ¬ program_counter s + 8 < u32size
    · rw [if_pos hg]; rfl
    · rw [if_neg hg, if_neg (show ¬ op.testBit 25 = true by
        rw [h25]; exact Bool.false_ne_true)]
      cases hs : sdtFromU32 op
      · exact absurd hs hld
      · rfl
      · rfl
  · intro s op h25
    simp only [single_data_transfer]
    by_cases hg : getBits op 16 19 = 15 ∧ ¬ program_counter s + 8 < u32size
    · rw [if_pos hg]; rfl
    · rw [if_neg hg, if_pos h25]; rfl
  · intro s v
    rfl

/-- The state used for the claim C9 witness: 16 zeroed registers and an
empty code image. -/
def c9State : Arm7tdmi := ⟨[], List.replicate 16 0, Cpsr.default⟩

/-- Witness for claim C9: the AND opcode 0 (ALU 0, register operand), the
store opcode 0 (bit 20 clear), the immediate-offset transfer opcode
0x02000000 (bit 25 set), and the ROR#0 shift all fail on a concrete
state. -/
theorem c9_unimplemented_paths_witness :
    (data_processing c9State 0).isOk = false ∧
    (single_data_transfer c9State 0).isOk = false ∧
    (single_data_transfer c9State 33554432).isOk = false ∧
    (shift c9State 3 0 0).isOk = false :=
  ⟨c9_unimplemented_paths.1 c9State 0 (by decide) (by decide),
   c9_unimplemented_paths.2.1 c9State 0 (by decide) (by decide),
   c9_unimplemented_paths.2.2.1 c9State 33554432 (by decide),
   c9_unimplemented_paths.2.2.2 c9State 0⟩

set_option maxRecDepth 4096 in
/-- Claim C10 (confirmed): every single-data-transfer load that executes
(register-offset form, i.e. bit 25 clear, classified as a load) writes
into the destination register (bits 12–15) the value base − offset when
bit 23 is set and base + offset when bit 23 is clear, as wrapping 32-bit
arithmetic, where the offset is the 12-bit field in bits 0–11 and the
base is PC + 8 when the base-register field (bits 16–19) is 15 and the
raw value of that register otherwise. -/
theorem c10_load_effective_address (s : Arm7tdmi) (op : Nat)
    (hlen : s.registers.length = 16)
    (himm : op.testBit 25 = false)
    (hldr : sdtFromU32 op = .Ldr)
    (hbase : getBits op 16 19 = 15 → program_counter s + 8 < u32size) :
    ∃ s1, single_data_transfer s op = .ok () s1 ∧
      register_at s1 (getBits op 12 15) =
        (((if getBits op 16 19 = 15 then (program_counter s : Int) + 8
            else (register_at s (getBits op 16 19) : Int)) +
          (if op.testBit 23 then -(getBits op 0 11 : Int)
            else (getBits op 0 11 : Int))) % (u32size : Int)).toNat := by
  have hg : ¬ (getBits op 16 19 = 15 ∧ ¬ program_counter s + 8 < u32size) := by
    intro hand
    exact hand.2 (hbase hand.1)
  have hoff : getBits op 0 11 < 4294967296 :=
    lt_of_lt_of_le (getBits_lt op 0 11) (by norm_num)
  have hsdt : single_data_transfer s op = .ok ()
      (set_register_at s (getBits op 12 15)
        (if op.testBit 23 then
          ((if getBits op 16 19 = 15 then program_counter s + 8
            else register_at s (getBits op 16 19)) + (u32size - getBits op 0 11))
            % u32size
         else wrap ((if getBits op 16 19 = 15 then program_counter s + 8
            else register_at s (getBits op 16 19)) + getBits op 0 11))) := by
    simp only [single_data_transfer, hg, if_false, hldr]
    rw [if_neg (show ¬ op.testBit 25 = true by rw [himm]; exact Bool.false_ne_true)]
  refine ⟨_, hsdt, ?_⟩
  rw [register_at_set_self _ _ _ (by rw [hlen]; exact getBits_lt op 12 15)]
  have hcast : (if getBits op 16 19 = 15 then (program_counter s : Int) + 8
      else (register_at s (getBits op 16 19) : Int)) =
      ((if getBits op 16 19 = 15 then program_counter s + 8
        else register_at s (getBits op 16 19) : Nat) : Int) := by
    by_cases h : getBits op 16 19 = 15 <;> simp [h]
  rw [hcast]
  generalize (if getBits op 16 19 = 15 then program_counter s + 8
    else register_at s (getBits op 16 19) : Nat) = base
  by_cases h23 : op.testBit 23 = true <;>
    simp only [h23, if_true, Bool.false_eq_true, if_false, wrap, u32size] <;>
    omega

/-- The state used for the claim C10 witness: register 2 holds 100. -/
def c10State : Arm7tdmi :=
  ⟨[], [0, 0, 100, 0, 0, 0, 0, 0, 0, 0, 0, 0, 0, 0, 0, 0], Cpsr.default⟩

/-- Witness for claim C10 at the concrete load opcode 0xE5921004 (base
register 2 holding 100, subtract direction, offset 4): the destination
register receives 96. -/
theorem c10_load_effective_address_witness :
    ∃ s1, single_data_transfer c10State 3851554820 = .ok () s1 ∧
      register_at s1 (getBits 3851554820 12 15) =
        (((if getBits 3851554820 16 19 = 15 then (program_counter c10State : Int) + 8
            else (register_at c10State (getBits 3851554820 16 19) : Int)) +
          (if (3851554820 : Nat).testBit 23 then -(getBits 3851554820 0 11 : Int)
            else (getBits 3851554820 0 11 : Int))) % (u32size : Int)).toNat :=
  c10_load_effective_address c10State 3851554820 (by decide) (by decide) rfl
    (by decide)
